import Mathlib

/-!
A shallow embedding of the peripheral fabric of the ts7200 emulator
(memory trait, RAM, system controller, timer, VIC, UART interrupt logic,
memory sniffer), together with theorems checking the natural-language
specification against it.

Conventions of the embedding:
* machine integers (u8/u16/u32/u64) become `Nat`, with explicit `% 2^w`
  (or `&&&`/`|||`/`^^^` masks) exactly where the Rust code wraps or casts;
* `Instant`-based elapsed time becomes an explicit `dt` parameter in
  nanoseconds;
* methods that mutate `&mut self` become functions `State → ... → State × _`;
* channel sends become explicit lists of emitted messages;
* fallible operations return `Except MemException _`.
-/

/-- Severity levels: the subset of `log::Level` used by the devices. -/
inductive LogLevel where
  | error
  | warn
  | info
deriving DecidableEq

/-- Memory access exceptions, mirroring the `MemException` enum revision used
by the device files (`Misaligned`, `Unexpected`, `Unimplemented`,
`StubRead`, `StubWrite`, `InvalidAccess`, `ContractViolation`).
The device-path/offset enrichment performed by `mem_ctx` only rewrites
logging metadata and is not modelled. -/
inductive MemException where
  | misaligned
  | unexpected
  | unimplemented
  | stubRead (v : Nat)
  | stubWrite
  | invalidAccess
  | contractViolation (msg : String) (severity : LogLevel) (stub_val : Option Nat)
deriving DecidableEq

/-- `MemResult<T>` from the source. -/
abbrev MemResult (α : Type) : Type := Except MemException α

instance {ε α : Type} [DecidableEq ε] [DecidableEq α] : DecidableEq (Except ε α) := fun x y =>
  match x, y with
  | .ok a, .ok b =>
      match decEq a b with
      | .isTrue h => .isTrue (h ▸ rfl)
      | .isFalse h => .isFalse (fun hh => h (Except.ok.inj hh))
  | .ok _, .error _ => .isFalse (fun hh => Except.noConfusion hh)
  | .error _, .ok _ => .isFalse (fun hh => Except.noConfusion hh)
  | .error a, .error b =>
      match decEq a b with
      | .isTrue h => .isTrue (h ▸ rfl)
      | .isFalse h => .isFalse (fun hh => h (Except.error.inj hh))

/-- Is the exception a `ContractViolation` with severity `Error`? -/
def MemException.isCVError : MemException → Bool
  | .contractViolation _ .error _ => true
  | _ => false

/-- Is the exception a `ContractViolation` (any severity)? -/
def MemException.isCV : MemException → Bool
  | .contractViolation _ _ _ => true
  | _ => false

/-! ## Memory trait default narrow accessors (src/src/memory/mod.rs)

The device's own 32-bit access is abstracted as a state-threading function
(`r32 : σ → Nat → σ × MemResult Nat`, `w32 : σ → Nat → Nat → σ × MemResult Unit`);
the default `r8`/`r16`/`w8`/`w16` bodies are translated verbatim. -/

/-- Default `Memory::r8`: misaligned check, else forward to `r32` and truncate
to 8 bits (`v as u8`). -/
def Memory.r8 {σ : Type} (r32 : σ → Nat → σ × MemResult Nat) (s : σ) (offset : Nat) :
    σ × MemResult Nat :=
  if offset &&& 0x3 ≠ 0 then
    (s, .error .misaligned)
  else
    let p := r32 s offset
    (p.1, p.2.map (fun v => v % 2 ^ 8))

/-- Default `Memory::r16`: misaligned check, else forward to `r32` and truncate
to 16 bits (`v as u16`). -/
def Memory.r16 {σ : Type} (r32 : σ → Nat → σ × MemResult Nat) (s : σ) (offset : Nat) :
    σ × MemResult Nat :=
  if offset &&& 0x3 ≠ 0 then
    (s, .error .misaligned)
  else
    let p := r32 s offset
    (p.1, p.2.map (fun v => v % 2 ^ 16))

/-- Default `Memory::w8`: misaligned check, else forward the zero-extended
value (`val as u32`) to `w32`. -/
def Memory.w8 {σ : Type} (w32 : σ → Nat → Nat → σ × MemResult Unit) (s : σ)
    (offset val : Nat) : σ × MemResult Unit :=
  if offset &&& 0x3 ≠ 0 then
    (s, .error .misaligned)
  else
    w32 s offset val

/-- Default `Memory::w16`: misaligned check, else forward the zero-extended
value (`val as u32`) to `w32`. -/
def Memory.w16 {σ : Type} (w32 : σ → Nat → Nat → σ × MemResult Unit) (s : σ)
    (offset val : Nat) : σ × MemResult Unit :=
  if offset &&& 0x3 ≠ 0 then
    (s, .error .misaligned)
  else
    w32 s offset val

/-! ## Memory sniffer (src/src/util/mem_sniffer.rs) -/

/-- `MemAccessKind` (Read or Write). -/
inductive MemAccessKind where
  | read
  | write
deriving DecidableEq

/-- Modelled from the spec: `MemAccessVal`, the width-tagged value of an
access record. The defining file (src/memory/access.rs) is absent from the
snapshot; §3 of the spec describes "a tagged value of width 8/16/32". -/
inductive MemAccessVal where
  | u8 (v : Nat)
  | u16 (v : Nat)
  | u32 (v : Nat)
deriving DecidableEq

/-- Modelled from the spec: `MemAccess`, the access record produced for
watchpoints — "Kind (Read|Write), offset, and a tagged value of width
8/16/32" (spec §3). The defining file (src/memory/access.rs) is absent
from the snapshot. -/
structure MemAccess where
  kind : MemAccessKind
  offset : Nat
  val : MemAccessVal
deriving DecidableEq

/-- `MemAccess::r8` constructor shape used by the sniffer macro. -/
def MemAccess.mkR8 (addr v : Nat) : MemAccess := ⟨.read, addr, .u8 v⟩

/-- `MemAccess::r16` constructor shape used by the sniffer macro. -/
def MemAccess.mkR16 (addr v : Nat) : MemAccess := ⟨.read, addr, .u16 v⟩

/-- `MemAccess::r32` constructor shape used by the sniffer macro. -/
def MemAccess.mkR32 (addr v : Nat) : MemAccess := ⟨.read, addr, .u32 v⟩

/-- `MemAccess::w8` constructor shape used by the sniffer macro. -/
def MemAccess.mkW8 (addr v : Nat) : MemAccess := ⟨.write, addr, .u8 v⟩

/-- `MemAccess::w16` constructor shape used by the sniffer macro. -/
def MemAccess.mkW16 (addr v : Nat) : MemAccess := ⟨.write, addr, .u16 v⟩

/-- `MemAccess::w32` constructor shape used by the sniffer macro. -/
def MemAccess.mkW32 (addr v : Nat) : MemAccess := ⟨.write, addr, .u32 v⟩

/-- The body generated by `impl_memsniff_r!` for each read width:
run the wrapped read, propagate an error with `?`, and invoke the callback
(recorded here as an emitted list) only when the exact accessed address is
on the watch list. `f` is the wrapped memory's read at this width and `mk`
the matching `MemAccess` constructor. -/
def memsniffR {σ : Type} (f : σ → Nat → σ × MemResult Nat) (mk : Nat → Nat → MemAccess)
    (addrs : List Nat) (s : σ) (addr : Nat) : (σ × MemResult Nat) × List MemAccess :=
  match f s addr with
  | (s1, .error e) => ((s1, .error e), [])
  | (s1, .ok ret) => ((s1, .ok ret), if addr ∈ addrs then [mk addr ret] else [])

/-- The body generated by `impl_memsniff_w!` for each write width:
run the wrapped write, propagate an error with `?`, and invoke the callback
(recorded as an emitted list) only when the exact accessed address is on
the watch list. -/
def memsniffW {σ : Type} (f : σ → Nat → Nat → σ × MemResult Unit) (mk : Nat → Nat → MemAccess)
    (addrs : List Nat) (s : σ) (addr val : Nat) : (σ × MemResult Unit) × List MemAccess :=
  match f s addr val with
  | (s1, .error e) => ((s1, .error e), [])
  | (s1, .ok ()) => ((s1, .ok ()), if addr ∈ addrs then [mk addr val] else [])

/-! ## RAM (src/src/devices/ram.rs)

`Vec<u8>` and the parallel `Vec<bool>` init bitmap become total functions
`Nat → Nat` / `Nat → Bool` plus an explicit `size`; all theorems constrain
offsets to lie in bounds (Rust would panic out of bounds).  This revision of
ram.rs implements its own `r8/r16/w8/w16` (bypassing the misaligned
defaults) and its `ContractViolation` carries `{ msg, stub_val }` with no
severity field, so RAM gets its own error type.  The hex-dump text built by
`addr_as_str` is logging-only and is elided from the messages. -/

/-- The `ContractViolation { msg, stub_val }` shape raised by ram.rs. -/
inductive RamException where
  | contractViolation (msg : String) (stub_val : Option Nat)
deriving DecidableEq

/-- Pointwise update of a function-backed byte store. -/
def updFn {α : Type} (f : Nat → α) (i : Nat) (v : α) : Nat → α :=
  fun j => if j = i then v else f j

/-- RAM state: byte buffer plus initialized-bitmap (`Ram` struct). -/
structure Ram where
  size : Nat
  mem : Nat → Nat
  initialized : Nat → Bool

/-- `Ram::new(size)`: fill with `b'-'` (0x2D), all init bits clear. -/
def Ram.new (size : Nat) : Ram :=
  { size := size, mem := fun _ => 0x2D, initialized := fun _ => false }

/-- `Ram::bulk_write`: store the bytes and set their init bits. -/
def Ram.bulk_write (r : Ram) (offset : Nat) (data : List Nat) : Ram :=
  match data with
  | [] => r
  | b :: rest =>
      Ram.bulk_write
        { r with mem := updFn r.mem offset b, initialized := updFn r.initialized offset true }
        (offset + 1) rest

/-- `LittleEndian::read_u16` on the underlying buffer. -/
def Ram.readU16 (r : Ram) (offset : Nat) : Nat :=
  r.mem offset + 2 ^ 8 * r.mem (offset + 1)

/-- `LittleEndian::read_u32` on the underlying buffer. -/
def Ram.readU32 (r : Ram) (offset : Nat) : Nat :=
  r.mem offset + 2 ^ 8 * r.mem (offset + 1) + 2 ^ 16 * r.mem (offset + 2) +
    2 ^ 24 * r.mem (offset + 3)

/-- `Ram::r8`: raw byte; error with the raw byte as `stub_val` if its init
bit is clear. -/
def Ram.r8 (r : Ram) (offset : Nat) : Except RamException Nat :=
  let val := r.mem offset
  if !(r.initialized offset) then
    .error (.contractViolation "r8 from (partially) uninitialized RAM" (some val))
  else
    .ok val

/-- `Ram::r16`: little-endian halfword; error with the raw content as
`stub_val` unless both spanned init bits are set. -/
def Ram.r16 (r : Ram) (offset : Nat) : Except RamException Nat :=
  let val := r.readU16 offset
  if !(r.initialized offset && r.initialized (offset + 1)) then
    .error (.contractViolation "r16 from (partially) uninitialized RAM" (some val))
  else
    .ok val

/-- `Ram::r32`: little-endian word; error with the raw content as `stub_val`
unless all four spanned init bits are set. -/
def Ram.r32 (r : Ram) (offset : Nat) : Except RamException Nat :=
  let val := r.readU32 offset
  if !(r.initialized offset && r.initialized (offset + 1) && r.initialized (offset + 2) &&
      r.initialized (offset + 3)) then
    .error (.contractViolation "r32 from (partially) uninitialized RAM" (some val))
  else
    .ok val

/-- `Ram::w8`: set the init bit and store the byte; always succeeds. -/
def Ram.w8 (r : Ram) (offset val : Nat) : Ram × Except RamException Unit :=
  ({ r with mem := updFn r.mem offset val, initialized := updFn r.initialized offset true },
    .ok ())

/-- `Ram::w16`: set both init bits and store the halfword little-endian;
always succeeds. -/
def Ram.w16 (r : Ram) (offset val : Nat) : Ram × Except RamException Unit :=
  ({ r with
      mem := updFn (updFn r.mem offset (val % 2 ^ 8)) (offset + 1) (val / 2 ^ 8 % 2 ^ 8),
      initialized := updFn (updFn r.initialized offset true) (offset + 1) true },
    .ok ())

/-- `Ram::w32`: set all four init bits and store the word little-endian;
always succeeds. -/
def Ram.w32 (r : Ram) (offset val : Nat) : Ram × Except RamException Unit :=
  ({ r with
      mem :=
        updFn (updFn (updFn (updFn r.mem offset (val % 2 ^ 8))
          (offset + 1) (val / 2 ^ 8 % 2 ^ 8))
          (offset + 2) (val / 2 ^ 16 % 2 ^ 8))
          (offset + 3) (val / 2 ^ 24 % 2 ^ 8),
      initialized :=
        updFn (updFn (updFn (updFn r.initialized offset true)
          (offset + 1) true) (offset + 2) true) (offset + 3) true },
    .ok ())

/-! ## System controller (Syscon)

Modelled from the spec: the current syscon — the one with the power-state
FSM — is missing from src/.  The file src/src/devices/syscon.rs in the
snapshot is a stale revision that panics instead of returning
`ContractViolation` and has no `PowerState`, while its in-snapshot caller
src/src/sys/ts7200/mod.rs requires `devices::syscon::PowerState`,
`Syscon::power_state()` and `Syscon::set_run_mode()`.  The definitions
below follow spec §3 ("Syscon state") and §4.3, keeping the stale file's
register layout (which the spec's register map matches). -/

/-- Modelled from the spec: power state `∈ {Run, Halt, Standby}` (spec §3). -/
inductive PowerState where
  | run
  | halt
  | standby
deriving DecidableEq

/-- Modelled from the spec: Syscon register-file state — two scratch
registers, device-config register, lock flag, power state (spec §3). -/
structure Syscon where
  scratch_reg0 : Nat
  scratch_reg1 : Nat
  device_cfg : Nat
  is_locked : Bool
  power_state : PowerState
deriving DecidableEq

/-- `Syscon::new_hle`: scratch registers zero, `device_cfg = 0x08940d00`,
locked, power state Run. -/
def Syscon.new_hle : Syscon :=
  { scratch_reg0 := 0, scratch_reg1 := 0, device_cfg := 0x08940d00,
    is_locked := true, power_state := .run }

/-- Modelled from the spec: `Syscon::r32`.  Halt (0x08) and Standby (0x0C)
reads transition the power state iff `device_cfg & 1 == 1`, else
`ContractViolation(Error)`; SysSWLock (0xC0) reads `0x01` when unlocked else
`0x00`; ScratchReg0/1 and DeviceCfg round-trip; other mapped registers are
`Unimplemented`; unmapped offsets are `Unexpected` (spec §4.3). -/
def Syscon.r32 (s : Syscon) (offset : Nat) : Syscon × MemResult Nat :=
  if offset = 0x00 then (s, .error .unimplemented)
  else if offset = 0x04 then (s, .error .unimplemented)
  else if offset = 0x08 then
    if s.device_cfg &&& 1 = 1 then
      ({ s with power_state := .halt }, .ok 0)
    else
      (s, .error (.contractViolation
        "Cannot enter Halt mode if SHena != 1 in syscon DeviceCfg" .error none))
  else if offset = 0x0C then
    if s.device_cfg &&& 1 = 1 then
      ({ s with power_state := .standby }, .ok 0)
    else
      (s, .error (.contractViolation
        "Cannot enter Standby mode if SHena != 1 in syscon DeviceCfg" .error none))
  else if offset = 0x18 then (s, .error .unimplemented)
  else if offset = 0x1C then (s, .error .unimplemented)
  else if offset = 0x20 then (s, .error .unimplemented)
  else if offset = 0x24 then (s, .error .unimplemented)
  else if offset = 0x40 then (s, .ok s.scratch_reg0)
  else if offset = 0x44 then (s, .ok s.scratch_reg1)
  else if offset = 0x50 then (s, .error .unimplemented)
  else if offset = 0x54 then (s, .error .unimplemented)
  else if offset = 0x58 then (s, .error .unimplemented)
  else if offset = 0x80 then (s, .ok s.device_cfg)
  else if offset = 0x84 then (s, .error .unimplemented)
  else if offset = 0x88 then (s, .error .unimplemented)
  else if offset = 0x8C then (s, .error .unimplemented)
  else if offset = 0x90 then (s, .error .unimplemented)
  else if offset = 0x94 then (s, .error .unimplemented)
  else if offset = 0x9C then (s, .error .unimplemented)
  else if offset = 0xC0 then
    if s.is_locked then (s, .ok 0x00) else (s, .ok 0x01)
  else (s, .error .unexpected)

/-- Modelled from the spec: the `match offset` body of `Syscon::w32`, run
after the SW-lock gate.  DeviceCfg (0x80) and the scratch registers store
the value; Halt/Standby writes are `InvalidAccess`; SysSWLock (0xC0)
accepts only `0xAA` (clearing the lock) and rejects anything else with a
`ContractViolation`; the other mapped registers are `Unimplemented`;
unmapped offsets are `Unexpected` (spec §4.3). -/
def Syscon.w32Body (s : Syscon) (offset val : Nat) : Syscon × MemResult Unit :=
  if offset = 0x00 then (s, .error .unimplemented)
  else if offset = 0x04 then (s, .error .unimplemented)
  else if offset = 0x08 then (s, .error .invalidAccess)
  else if offset = 0x0C then (s, .error .invalidAccess)
  else if offset = 0x18 then (s, .error .unimplemented)
  else if offset = 0x1C then (s, .error .unimplemented)
  else if offset = 0x20 then (s, .error .unimplemented)
  else if offset = 0x24 then (s, .error .unimplemented)
  else if offset = 0x40 then ({ s with scratch_reg0 := val }, .ok ())
  else if offset = 0x44 then ({ s with scratch_reg1 := val }, .ok ())
  else if offset = 0x50 then (s, .error .unimplemented)
  else if offset = 0x54 then (s, .error .unimplemented)
  else if offset = 0x58 then (s, .error .unimplemented)
  else if offset = 0x80 then ({ s with device_cfg := val }, .ok ())
  else if offset = 0x84 then (s, .error .unimplemented)
  else if offset = 0x88 then (s, .error .unimplemented)
  else if offset = 0x8C then (s, .error .unimplemented)
  else if offset = 0x90 then (s, .error .unimplemented)
  else if offset = 0x94 then (s, .error .unimplemented)
  else if offset = 0x9C then (s, .error .unimplemented)
  else if offset = 0xC0 then
    if val = 0xAA then ({ s with is_locked := false }, .ok ())
    else
      (s, .error (.contractViolation "wrote non-0xAA value to SysSWLock register" .error none))
  else (s, .error .unexpected)

/-- Modelled from the spec: `Syscon::w32`.  Writes into the SW-locked range
`0x80..=0x9C` are rejected with an Error-severity `ContractViolation` while
locked; when unlocked the lock immediately re-engages and the write
proceeds to the register body (spec §3 invariant and §4.3). -/
def Syscon.w32 (s : Syscon) (offset val : Nat) : Syscon × MemResult Unit :=
  if 0x80 ≤ offset ∧ offset ≤ 0x9C then
    if s.is_locked then
      (s, .error (.contractViolation
        "attempted to write to a SW locked syscon register" .error none))
    else
      Syscon.w32Body { s with is_locked := true } offset val
  else
    Syscon.w32Body s offset val

/-! ## Timer (src/src/devices/timer.rs)

`Instant`-based elapsed time becomes the explicit parameter `dt` (nanoseconds,
`u64`); `last_time` is therefore not a field.  The interrupter-thread channel
and the interrupt bus become an explicit list of emitted effects. -/

/-- Timer `Mode` (FreeRunning = 0, Periodic = 1). -/
inductive TimerMode where
  | freeRunning
  | periodic
deriving DecidableEq

/-- The `Control`-register encoding of the mode. -/
def TimerMode.toNat : TimerMode → Nat
  | .freeRunning => 0
  | .periodic => 1

/-- Timer `Clock` (Khz2 = 0, Khz508 = 1). -/
inductive TimerClock where
  | khz2
  | khz508
deriving DecidableEq

/-- `Clock::khz`. -/
def TimerClock.khz : TimerClock → Nat
  | .khz2 => 2
  | .khz508 => 508

/-- The `Control`-register encoding of the clock select. -/
def TimerClock.toNat : TimerClock → Nat
  | .khz2 => 0
  | .khz508 => 1

/-- Register-visible Timer state (`Timer` struct minus the wall-clock
`last_time` and the channel handles). -/
structure Timer where
  loadval : Option Nat
  val : Nat
  enabled : Bool
  mode : TimerMode
  clksel : TimerClock
  wrapmask : Nat
  microticks : Nat
deriving DecidableEq

/-- `Timer::new` register state for a `bits`-wide timer. -/
def Timer.new (bits : Nat) : Timer :=
  { loadval := none, val := 0, enabled := false, mode := .freeRunning,
    clksel := .khz2, wrapmask := 2 ^ bits - 1, microticks := 0 }

/-- Messages the timer emits as side effects: interrupter-thread commands
(`Enabled { period }` / `Disabled`; the `next` instant is wall-clock and not
modelled) and interrupt-bus messages `(this_interrupt, asserted)`. -/
inductive TimerEffect where
  | interrupterEnabled (periodNanos : Nat)
  | interrupterDisabled
  | intBus (asserted : Bool)
deriving DecidableEq

/-- `Timer::update_regs`, the lazy register update, at elapsed wall time `dt`
nanoseconds.  `dt * khz + microticks` is `u64` arithmetic and the
`ticks`/`microticks` results are cast `as u32`, hence the `% 2^64` / `% 2^32`.
On the Periodic-without-Load error the partial mutation of `microticks`
survives, exactly as the early `return Err` leaves `self` in Rust. -/
def Timer.update_regs (s : Timer) (dt : Nat) : Timer × Option MemException :=
  if s.enabled = false then
    (s, none)
  else
    let khz := s.clksel.khz
    let micro := (dt * khz + s.microticks) % 2 ^ 64
    let ticks := micro / 1000000 % 2 ^ 32
    let s1 := { s with microticks := micro % 1000000 }
    match s1.mode with
    | .freeRunning =>
        ({ s1 with val := ((s1.val + (2 ^ 32 - ticks)) % 2 ^ 32) &&& s1.wrapmask }, none)
    | .periodic =>
        match s1.loadval with
        | none =>
            (s1, some (.contractViolation
              "Periodic mode enabled before setting a Load value" .error none))
        | some loadval =>
            let newval :=
              if loadval = 0 then 0
              else if s1.val < ticks then loadval - ((ticks - s1.val) % loadval)
              else s1.val - ticks
            ({ s1 with val := newval }, none)

/-- `Timer::r32` at elapsed time `dt`: run the lazy update first (propagating
its error), then dispatch on the register offset. -/
def Timer.r32 (s : Timer) (dt offset : Nat) : Timer × MemResult Nat :=
  match Timer.update_regs s dt with
  | (s1, some e) => (s1, .error e)
  | (s1, none) =>
    if offset = 0x00 then
      match s1.loadval with
      | some v => (s1, .ok v)
      | none =>
          (s1, .error (.contractViolation
            "Cannot read Load register before it has been set" .error none))
    else if offset = 0x04 then (s1, .ok s1.val)
    else if offset = 0x08 then
      (s1, .ok ((s1.clksel.toNat <<< 3) ||| (s1.mode.toNat <<< 6) |||
        ((if s1.enabled then 1 else 0) <<< 7)))
    else if offset = 0x0C then (s1, .error .invalidAccess)
    else (s1, .error .unexpected)

/-- `Timer::w32` at elapsed time `dt`: run the lazy update first (propagating
its error), then dispatch on the register offset, emitting interrupter and
interrupt-bus messages as effects. -/
def Timer.w32 (s : Timer) (dt offset val : Nat) :
    Timer × List TimerEffect × MemResult Unit :=
  match Timer.update_regs s dt with
  | (s1, some e) => (s1, [], .error e)
  | (s1, none) =>
    if offset = 0x00 then
      if s1.enabled then
        (s1, [], .error (.contractViolation
          "cannot write Load register while timer is enabled" .error none))
      else
        let v := val &&& s1.wrapmask
        ({ s1 with loadval := some v, val := v }, [], .ok ())
    else if offset = 0x04 then (s1, [], .error .invalidAccess)
    else if offset = 0x08 then
      let s2 : Timer :=
        { s1 with
          clksel := if val &&& (1 <<< 3) != 0 then .khz508 else .khz2,
          mode := if val &&& (1 <<< 6) != 0 then .periodic else .freeRunning,
          enabled := val &&& (1 <<< 7) != 0 }
      if s2.enabled && !s1.enabled then
        let s3 := { s2 with microticks := 0 }
        if s3.mode = .periodic then
          match s3.loadval with
          | none =>
              (s3, [], .error (.contractViolation
                "Periodic mode enabled before setting a Load value" .error none))
          | some loadval =>
              let period := loadval * 1000000 / s3.clksel.khz
              (s3, [.interrupterEnabled period], .ok ())
        else (s3, [], .ok ())
      else
        if s2.enabled = false then
          ({ s2 with loadval := none }, [.interrupterDisabled], .ok ())
        else (s2, [], .ok ())
    else if offset = 0x0C then (s1, [.intBus false], .ok ())
    else (s1, [], .error .unexpected)

/-! ## VIC bank (src/src/devices/vic/mod.rs)

The `[VectorEntry; 16]` array becomes a list (the register interface never
produces an index outside `0..16`, and the claims quantify over arbitrary
contents). -/

/-- One `VectorEntry { source, isr_addr, enabled }`. -/
structure VectorEntry where
  source : Nat
  isr_addr : Nat
  enabled : Bool
deriving DecidableEq

instance : Inhabited VectorEntry := ⟨⟨0, 0, false⟩⟩

/-- One VIC bank's register state. -/
structure Vic where
  status : Nat
  enabled : Nat
  select : Nat
  software_status : Nat
  default_isr : Nat
  vector_entries : List VectorEntry
deriving DecidableEq

/-- Bitwise complement on `u32` (`!x` in Rust). -/
def not32 (x : Nat) : Nat := 0xFFFFFFFF ^^^ (x % 2 ^ 32)

/-- `Vic::rawstatus`. -/
def Vic.rawstatus (s : Vic) : Nat := s.software_status ||| s.status

/-- `Vic::enabled_active_interrupts`. -/
def Vic.enabled_active_interrupts (s : Vic) : Nat := s.rawstatus &&& s.enabled

/-- `Vic::irq`. -/
def Vic.irq (s : Vic) : Bool := (s.enabled_active_interrupts &&& not32 s.select) != 0

/-- `Vic::fiq`. -/
def Vic.fiq (s : Vic) : Bool := (s.enabled_active_interrupts &&& s.select) != 0

/-- The per-entry test inside `isr_address`'s `find_map` closure: the entry
is enabled and its source bit is set in `irqs`. -/
def Vic.vectorHit (irqs : Nat) (e : VectorEntry) : Bool :=
  e.enabled && ((irqs &&& (1 <<< e.source)) != 0)

/-- `Vic::isr_address`: `default_isr` when `fiq || !irq`, else the first
vector entry hit by `enabled_active_interrupts & !select`, else
`default_isr`. -/
def Vic.isr_address (s : Vic) : Nat :=
  if s.fiq || !s.irq then s.default_isr
  else
    let irqs := s.enabled_active_interrupts &&& not32 s.select
    (s.vector_entries.findSome? fun entry =>
      if Vic.vectorHit irqs entry then some entry.isr_addr else none).getD s.default_isr

/-- `Vic::r32` (reads never mutate the bank). -/
def Vic.r32 (s : Vic) (offset : Nat) : MemResult Nat :=
  if offset = 0x00 then .ok (s.enabled_active_interrupts &&& not32 s.select)
  else if offset = 0x04 then .ok (s.enabled_active_interrupts &&& s.select)
  else if offset = 0x08 then .ok s.rawstatus
  else if offset = 0x0c then .ok s.select
  else if offset = 0x10 then .ok s.enabled
  else if offset = 0x14 then .error .invalidAccess
  else if offset = 0x18 then .ok s.software_status
  else if offset = 0x1c then .error .invalidAccess
  else if offset = 0x20 then .error (.stubRead 0)
  else if offset = 0x30 then .ok s.isr_address
  else if offset = 0x34 then .ok s.default_isr
  else if 0x100 ≤ offset ∧ offset ≤ 0x13c then
    .ok (s.vector_entries.getD ((offset - 0x100) / 4) default).isr_addr
  else if 0x200 ≤ offset ∧ offset ≤ 0x23c then
    let entry := s.vector_entries.getD ((offset - 0x200) / 4) default
    .ok ((if entry.enabled then 0x20 else 0) + entry.source)
  else if offset = 0xfe0 then .ok 0x90
  else if offset = 0xfe4 then .ok 0x11
  else if offset = 0xfe8 then .ok 0x04
  else if offset = 0xfec then .ok 0x00
  else .error .unexpected

/-! ## VIC manager (src/src/devices/vic/vicmanager.rs) -/

/-- The two daisy-chained banks. -/
structure VicManager where
  vic1 : Vic
  vic2 : Vic
deriving DecidableEq

/-- `VicManager::r32`: the daisy chain at offset 0x30, else route below
0x10000 to bank 1 and above to bank 2. -/
def VicManager.r32 (m : VicManager) (offset : Nat) : MemResult Nat :=
  if offset = 0x30 then
    if m.vic1.irq then m.vic1.r32 0x30
    else if m.vic2.irq then m.vic2.r32 0x30
    else m.vic1.r32 0x34
  else if offset < 0x10000 then m.vic1.r32 offset
  else m.vic2.r32 (offset - 0x10000)

/-! ## UART interrupt logic (src/src/devices/uart.rs, `State`)

Only the mutex-protected register `State` is embedded (the worker threads
act through the same `update_interrupts`).  `bittime` (a `Duration`) and the
channel handles are elided; interrupt-bus sends become an emitted list. -/

/-- The three logical interrupt lines of one UART (`UartInterrupts`
fields). -/
inductive UartIntKind where
  | tx
  | rx
  | combo
deriving DecidableEq

/-- UART register `State` (shared under the mutex). -/
structure UartState where
  linctrl_latched : Bool
  linctrl_latch : List Nat
  linctrl : List Nat
  ctrl : Nat
  word_len : Nat
  fifo_size : Nat
  overrun : Bool
  busy : Bool
  timeout : Bool
  cts_change : Bool
  rx_buf : List Nat
  tx_buf_size : Nat
  rx_int_asserted : Bool
  tx_int_asserted : Bool
  combo_int_asserted : Bool
deriving DecidableEq

/-- `State::get_int_id`: the UARTxIntIDIntClr byte — bit3 timeout, bit2 TX
half-empty, bit1 RX half-full, bit0 CTS change — masked by the interrupt
enables sitting 3 bits up in `ctrl`. -/
def UartState.get_int_id (s : UartState) : Nat :=
  let r := 0
  let r := if s.timeout then r ||| 8 else r
  let r := if s.tx_buf_size * 2 ≤ s.fifo_size then r ||| 4 else r
  let r := if s.rx_buf.length * 2 ≥ s.fifo_size then r ||| 2 else r
  let r := if s.cts_change then r ||| 1 else r
  r &&& (s.ctrl >>> 3)

/-- `State::update_interrupts`: for each logical interrupt, compare the
assertion computed from the masked int-id byte (tx: mask `0b1000`, rx: mask
`0b0010`, combined: mask `0b1111`, in that order) with the latched bit;
when they differ, flip the latch and emit `(hw_int, assert)` on the
interrupt bus. -/
def UartState.update_interrupts (s : UartState) :
    UartState × List (UartIntKind × Bool) :=
  let int_id := s.get_int_id
  let txAssert := (int_id &&& 0b1000) != 0
  let (s, txOut) :=
    if txAssert != s.tx_int_asserted then
      ({ s with tx_int_asserted := txAssert }, [(UartIntKind.tx, txAssert)])
    else (s, [])
  let rxAssert := (int_id &&& 0b0010) != 0
  let (s, rxOut) :=
    if rxAssert != s.rx_int_asserted then
      ({ s with rx_int_asserted := rxAssert }, [(UartIntKind.rx, rxAssert)])
    else (s, [])
  let comboAssert := (int_id &&& 0b1111) != 0
  let (s, comboOut) :=
    if comboAssert != s.combo_int_asserted then
      ({ s with combo_int_asserted := comboAssert }, [(UartIntKind.combo, comboAssert)])
    else (s, [])
  (s, txOut ++ rxOut ++ comboOut)

/-- A UART state exhibiting the Tx-interrupt wiring at work: receive-timeout
pending (int-id bit 3 set), TX fifo more than half full (bit 2 clear), RX
fifo empty (bit 1 clear), no CTS change (bit 0 clear), all interrupt
sources enabled in `ctrl`, no interrupt latched. -/
def uartTimeoutOnlyState : UartState :=
  { linctrl_latched := false, linctrl_latch := [0, 0, 0], linctrl := [0x70, 0, 3],
    ctrl := 0xFF, word_len := 11, fifo_size := 1,
    overrun := false, busy := false, timeout := true, cts_change := false,
    rx_buf := [], tx_buf_size := 1,
    rx_int_asserted := false, tx_int_asserted := false, combo_int_asserted := false }

/-! ## Theorems checking the claims -/

/-- Claim C4: for every device using the Memory trait's default narrow
accessors and every offset `o` with `o & 3 != 0`, each of `r8`, `r16`, `w8`
and `w16` at `o` returns Misaligned; for every aligned `o` they forward to
the device's 32-bit access, with reads truncating the 32-bit result to the
requested width and writes zero-extending the written value. -/
theorem c4_memory_default_narrow_accessors {σ : Type}
    (r32 : σ → Nat → σ × MemResult Nat) (w32 : σ → Nat → Nat → σ × MemResult Unit)
    (s : σ) (offset val : Nat) :
    (offset &&& 0x3 ≠ 0 →
      Memory.r8 r32 s offset = (s, .error .misaligned) ∧
      Memory.r16 r32 s offset = (s, .error .misaligned) ∧
      Memory.w8 w32 s offset val = (s, .error .misaligned) ∧
      Memory.w16 w32 s offset val = (s, .error .misaligned)) ∧
    (offset &&& 0x3 = 0 →
      Memory.r8 r32 s offset = ((r32 s offset).1, (r32 s offset).2.map (fun v => v % 2 ^ 8)) ∧
      Memory.r16 r32 s offset = ((r32 s offset).1, (r32 s offset).2.map (fun v => v % 2 ^ 16)) ∧
      Memory.w8 w32 s offset val = w32 s offset val ∧
      Memory.w16 w32 s offset val = w32 s offset val) := by
  constructor
  · intro h
    simp [Memory.r8, Memory.r16, Memory.w8, Memory.w16, h]
  · intro h
    simp [Memory.r8, Memory.r16, Memory.w8, Memory.w16, h]

/-- Witness for C4 at a misaligned and an aligned offset of a concrete
one-register device. -/
theorem c4_memory_default_narrow_accessors_witness :
    Memory.r8 (fun (s : Unit) (_ : Nat) => (s, Except.ok 0x12345678)) () 5 =
      ((), .error .misaligned) ∧
    Memory.r8 (fun (s : Unit) (_ : Nat) => (s, Except.ok 0x12345678)) () 4 =
      ((), .ok 0x78) := by
  have h1 := (c4_memory_default_narrow_accessors
    (fun (s : Unit) (_ : Nat) => (s, Except.ok 0x12345678))
    (fun (s : Unit) (_ _ : Nat) => (s, Except.ok ())) () 5 0).1 (by decide)
  have h2 := (c4_memory_default_narrow_accessors
    (fun (s : Unit) (_ : Nat) => (s, Except.ok 0x12345678))
    (fun (s : Unit) (_ _ : Nat) => (s, Except.ok ())) () 4 0).2 (by decide)
  exact ⟨h1.1, by rw [h2.1]; decide⟩

/-- Claim C10: a sniffed access propagates a wrapped-operation error
unchanged without invoking the watch callback, even if the address is
watched; after a successful operation the callback (the emitted access
list) fires exactly when the accessed address itself is on the watch list,
carrying the address and the read or written value; non-watched addresses
pass through with no other effect. -/
theorem c10_sniffer_callback_on_success_only {σ : Type}
    (f : σ → Nat → σ × MemResult Nat) (g : σ → Nat → Nat → σ × MemResult Unit)
    (mkr mkw : Nat → Nat → MemAccess) (addrs : List Nat) (s : σ) (addr val : Nat) :
    (∀ s1 e, f s addr = (s1, .error e) →
      memsniffR f mkr addrs s addr = ((s1, .error e), [])) ∧
    (∀ s1 ret, f s addr = (s1, .ok ret) →
      memsniffR f mkr addrs s addr =
        ((s1, .ok ret), if addr ∈ addrs then [mkr addr ret] else [])) ∧
    (∀ s1 e, g s addr val = (s1, .error e) →
      memsniffW g mkw addrs s addr val = ((s1, .error e), [])) ∧
    (∀ s1, g s addr val = (s1, .ok ()) →
      memsniffW g mkw addrs s addr val =
        ((s1, .ok ()), if addr ∈ addrs then [mkw addr val] else [])) := by
  refine ⟨?_, ?_, ?_, ?_⟩
  · intro s1 e h; unfold memsniffR; rw [h]
  · intro s1 ret h; unfold memsniffR; rw [h]
  · intro s1 e h; unfold memsniffW; rw [h]
  · intro s1 h; unfold memsniffW; rw [h]

/-- Witness for C10: a concrete wrapped memory that fails at address 7 and
succeeds elsewhere, watched at addresses 4 and 7 — the error propagates
with no callback, the watched success fires the callback, the unwatched
success (address 5, even though the 32-bit access covers 7) does not. -/
theorem c10_sniffer_callback_on_success_only_witness :
    memsniffR (fun (s : Unit) (a : Nat) => (s, if a = 7 then .error .misaligned else .ok (a + 100)))
      MemAccess.mkR32 [4, 7] () 7 = (((), .error .misaligned), []) ∧
    memsniffR (fun (s : Unit) (a : Nat) => (s, if a = 7 then .error .misaligned else .ok (a + 100)))
      MemAccess.mkR32 [4, 7] () 4 = (((), .ok 104), [MemAccess.mkR32 4 104]) ∧
    memsniffR (fun (s : Unit) (a : Nat) => (s, if a = 7 then .error .misaligned else .ok (a + 100)))
      MemAccess.mkR32 [4, 7] () 5 = (((), .ok 105), []) := by
  refine ⟨?_, ?_, ?_⟩
  · exact (c10_sniffer_callback_on_success_only
      (fun (s : Unit) (a : Nat) => (s, if a = 7 then .error .misaligned else .ok (a + 100)))
      (fun (s : Unit) (_ _ : Nat) => (s, Except.ok ())) MemAccess.mkR32 MemAccess.mkW32
      [4, 7] () 7 0).1 () .misaligned (by decide)
  · have h := (c10_sniffer_callback_on_success_only
      (fun (s : Unit) (a : Nat) => (s, if a = 7 then .error .misaligned else .ok (a + 100)))
      (fun (s : Unit) (_ _ : Nat) => (s, Except.ok ())) MemAccess.mkR32 MemAccess.mkW32
      [4, 7] () 4 0).2.1 () 104 (by decide)
    rw [h]; decide
  · have h := (c10_sniffer_callback_on_success_only
      (fun (s : Unit) (a : Nat) => (s, if a = 7 then .error .misaligned else .ok (a + 100)))
      (fun (s : Unit) (_ _ : Nat) => (s, Except.ok ())) MemAccess.mkR32 MemAccess.mkW32
      [4, 7] () 5 0).2.1 () 105 (by decide)
    rw [h]; decide


/-- Bytes strictly below the write window are untouched by `bulk_write`. -/
theorem Ram.bulk_write_below (data : List Nat) : ∀ (r : Ram) (offset j : Nat), j < offset →
    (Ram.bulk_write r offset data).mem j = r.mem j ∧
    (Ram.bulk_write r offset data).initialized j = r.initialized j := by
  induction data with
  | nil => intro r offset j h; exact ⟨rfl, rfl⟩
  | cons b rest ih =>
      intro r offset j h
      have hr := ih { r with mem := updFn r.mem offset b,
                             initialized := updFn r.initialized offset true }
        (offset + 1) j (by omega)
      refine ⟨?_, ?_⟩
      · rw [Ram.bulk_write, hr.1]; simp [updFn, Nat.ne_of_lt h]
      · rw [Ram.bulk_write, hr.2]; simp [updFn, Nat.ne_of_lt h]

/-- `bulk_write` stores every byte of `data` and sets its init bit. -/
theorem Ram.bulk_write_get (data : List Nat) : ∀ (r : Ram) (offset i : Nat), i < data.length →
    (Ram.bulk_write r offset data).mem (offset + i) = data.getD i 0 ∧
    (Ram.bulk_write r offset data).initialized (offset + i) = true := by
  induction data with
  | nil => intro r offset i h; simp at h
  | cons b rest ih =>
      intro r offset i h
      match i with
      | 0 =>
          have hb := Ram.bulk_write_below rest
            { r with mem := updFn r.mem offset b,
                     initialized := updFn r.initialized offset true }
            (offset + 1) offset (by omega)
          refine ⟨?_, ?_⟩
          · rw [Nat.add_zero, Ram.bulk_write, hb.1]; simp [updFn]
          · rw [Nat.add_zero, Ram.bulk_write, hb.2]; simp [updFn]
      | i + 1 =>
          have hr := ih { r with mem := updFn r.mem offset b,
                                 initialized := updFn r.initialized offset true }
            (offset + 1) i (by simpa using h)
          refine ⟨?_, ?_⟩
          · rw [Ram.bulk_write, show offset + (i+1) = (offset+1) + i by omega, hr.1]; rfl
          · rw [Ram.bulk_write, show offset + (i+1) = (offset+1) + i by omega, hr.2]


/-- All three RAM write widths return `Ok`. -/
theorem ram_w_ok (r : Ram) (offset val : Nat) :
    (Ram.w8 r offset val).2 = .ok () ∧ (Ram.w16 r offset val).2 = .ok () ∧
      (Ram.w32 r offset val).2 = .ok () :=
  ⟨rfl, rfl, rfl⟩

/-- `w32` lays the word down little-endian and sets the four init bits. -/
theorem ram_w32_le_bytes (r : Ram) (offset val : Nat) :
    (Ram.w32 r offset val).1.mem offset = val % 2 ^ 8 ∧
      (Ram.w32 r offset val).1.mem (offset + 1) = val / 2 ^ 8 % 2 ^ 8 ∧
      (Ram.w32 r offset val).1.mem (offset + 2) = val / 2 ^ 16 % 2 ^ 8 ∧
      (Ram.w32 r offset val).1.mem (offset + 3) = val / 2 ^ 24 % 2 ^ 8 ∧
      (Ram.w32 r offset val).1.initialized offset = true ∧
      (Ram.w32 r offset val).1.initialized (offset + 1) = true ∧
      (Ram.w32 r offset val).1.initialized (offset + 2) = true ∧
      (Ram.w32 r offset val).1.initialized (offset + 3) = true := by
  refine ⟨?_, ?_, ?_, ?_, ?_, ?_, ?_, ?_⟩ <;> simp [Ram.w32, updFn]

/-- Byte round-trip through RAM. -/
theorem ram_r8_after_w8 (r : Ram) (offset val : Nat) :
    Ram.r8 (Ram.w8 r offset val).1 offset = .ok val := by
  simp [Ram.r8, Ram.w8, updFn]

/-- Halfword round-trip through RAM. -/
theorem ram_r16_after_w16 (r : Ram) (offset val : Nat) (hv : val < 2 ^ 16) :
    Ram.r16 (Ram.w16 r offset val).1 offset = .ok val := by
  have harith : val % 256 + 256 * (val / 256 % 256) = val := by omega
  simp [Ram.r16, Ram.w16, Ram.readU16, updFn, harith]

/-- Word round-trip through RAM. -/
theorem ram_r32_after_w32 (r : Ram) (offset val : Nat) (hv : val < 2 ^ 32) :
    Ram.r32 (Ram.w32 r offset val).1 offset = .ok val := by
  have harith : val % 256 + 256 * (val / 256 % 256) + 65536 * (val / 65536 % 256) +
      16777216 * (val / 16777216 % 256) = val := by omega
  simp [Ram.r32, Ram.w32, Ram.readU32, updFn, harith]

/-- Reads over fully-initialized spans return the raw little-endian
content. -/
theorem ram_r_init_ok (r : Ram) (offset : Nat) :
    (r.initialized offset = true → Ram.r8 r offset = .ok (r.mem offset)) ∧
    ((r.initialized offset && r.initialized (offset + 1)) = true →
      Ram.r16 r offset = .ok (r.readU16 offset)) ∧
    ((r.initialized offset && r.initialized (offset + 1) && r.initialized (offset + 2) &&
        r.initialized (offset + 3)) = true →
      Ram.r32 r offset = .ok (r.readU32 offset)) := by
  refine ⟨?_, ?_, ?_⟩
  · intro hi; simp [Ram.r8, hi]
  · intro hi; simp only [Bool.and_eq_true] at hi; simp [Ram.r16, hi.1, hi.2]
  · intro hi
    simp only [Bool.and_eq_true] at hi
    simp [Ram.r32, hi.1.1.1, hi.1.1.2, hi.1.2, hi.2]

/-- Reads over partially-uninitialized spans fail with the raw
little-endian content as `stub_val`. -/
theorem ram_r_uninit_stub (r : Ram) (offset : Nat) :
    (r.initialized offset = false →
      ∃ m, Ram.r8 r offset = .error (.contractViolation m (some (r.mem offset)))) ∧
    ((r.initialized offset && r.initialized (offset + 1)) = false →
      ∃ m, Ram.r16 r offset = .error (.contractViolation m (some (r.readU16 offset)))) ∧
    ((r.initialized offset && r.initialized (offset + 1) && r.initialized (offset + 2) &&
        r.initialized (offset + 3)) = false →
      ∃ m, Ram.r32 r offset = .error (.contractViolation m (some (r.readU32 offset)))) := by
  refine ⟨?_, ?_, ?_⟩
  · intro hi
    exact ⟨"r8 from (partially) uninitialized RAM", by simp [Ram.r8, hi]⟩
  · intro hi
    exact ⟨"r16 from (partially) uninitialized RAM", by simp [Ram.r16, hi]⟩
  · intro hi
    exact ⟨"r32 from (partially) uninitialized RAM", by simp [Ram.r32, hi]⟩

/-- Fresh RAM is filled with 0x2D and fully uninitialized. -/
theorem ram_fresh_fill (n offset : Nat) :
    (Ram.new n).mem offset = 0x2D ∧ (Ram.new n).initialized offset = false ∧
      ∃ m, Ram.r32 (Ram.new n) offset = .error (.contractViolation m (some 0x2D2D2D2D)) := by
  refine ⟨rfl, rfl, "r32 from (partially) uninitialized RAM", ?_⟩
  norm_num [Ram.r32, Ram.new, Ram.readU32]

/-- Claim C9: RAM writes (`w8`/`w16`/`w32`/`bulk_write`) always succeed,
store little-endian, and mark every byte they touch initialized; a read
whose spanned bytes are all initialized returns Ok with the stored value;
a read spanning any never-written byte returns a ContractViolation whose
`stub_val` is Some of the raw little-endian content of the spanned bytes
(initially the fill byte 0x2D in every position). -/
theorem c9_ram_init_tracking (r : Ram) (offset val n : Nat) (data : List Nat) :
    ((Ram.w8 r offset val).2 = .ok () ∧ (Ram.w16 r offset val).2 = .ok () ∧
      (Ram.w32 r offset val).2 = .ok ()) ∧
    ((Ram.w32 r offset val).1.mem offset = val % 2 ^ 8 ∧
      (Ram.w32 r offset val).1.mem (offset + 1) = val / 2 ^ 8 % 2 ^ 8 ∧
      (Ram.w32 r offset val).1.mem (offset + 2) = val / 2 ^ 16 % 2 ^ 8 ∧
      (Ram.w32 r offset val).1.mem (offset + 3) = val / 2 ^ 24 % 2 ^ 8 ∧
      (Ram.w32 r offset val).1.initialized offset = true ∧
      (Ram.w32 r offset val).1.initialized (offset + 1) = true ∧
      (Ram.w32 r offset val).1.initialized (offset + 2) = true ∧
      (Ram.w32 r offset val).1.initialized (offset + 3) = true) ∧
    (∀ i, i < data.length →
      (Ram.bulk_write r offset data).mem (offset + i) = data.getD i 0 ∧
      (Ram.bulk_write r offset data).initialized (offset + i) = true) ∧
    (val < 2 ^ 8 → Ram.r8 (Ram.w8 r offset val).1 offset = .ok val) ∧
    (val < 2 ^ 16 → Ram.r16 (Ram.w16 r offset val).1 offset = .ok val) ∧
    (val < 2 ^ 32 → Ram.r32 (Ram.w32 r offset val).1 offset = .ok val) ∧
    (r.initialized offset = true → Ram.r8 r offset = .ok (r.mem offset)) ∧
    ((r.initialized offset && r.initialized (offset + 1)) = true →
      Ram.r16 r offset = .ok (r.readU16 offset)) ∧
    ((r.initialized offset && r.initialized (offset + 1) && r.initialized (offset + 2) &&
        r.initialized (offset + 3)) = true →
      Ram.r32 r offset = .ok (r.readU32 offset)) ∧
    (r.initialized offset = false →
      ∃ m, Ram.r8 r offset = .error (.contractViolation m (some (r.mem offset)))) ∧
    ((r.initialized offset && r.initialized (offset + 1)) = false →
      ∃ m, Ram.r16 r offset = .error (.contractViolation m (some (r.readU16 offset)))) ∧
    ((r.initialized offset && r.initialized (offset + 1) && r.initialized (offset + 2) &&
        r.initialized (offset + 3)) = false →
      ∃ m, Ram.r32 r offset = .error (.contractViolation m (some (r.readU32 offset)))) ∧
    ((Ram.new n).mem offset = 0x2D ∧ (Ram.new n).initialized offset = false ∧
      ∃ m, Ram.r32 (Ram.new n) offset = .error (.contractViolation m (some 0x2D2D2D2D))) :=
  ⟨ram_w_ok r offset val, ram_w32_le_bytes r offset val,
   Ram.bulk_write_get data r offset,
   fun _ => ram_r8_after_w8 r offset val,
   fun h => ram_r16_after_w16 r offset val h,
   fun h => ram_r32_after_w32 r offset val h,
   (ram_r_init_ok r offset).1, (ram_r_init_ok r offset).2.1, (ram_r_init_ok r offset).2.2,
   (ram_r_uninit_stub r offset).1, (ram_r_uninit_stub r offset).2.1,
   (ram_r_uninit_stub r offset).2.2,
   ram_fresh_fill n offset⟩

/-- Witness for C9 on a fresh 1 KiB RAM: a word round-trips at offset 0, an
uninitialized word reads back the 0x2D fill as `stub_val`, and `bulk_write`
stores its bytes. -/
theorem c9_ram_init_tracking_witness :
    Ram.r32 (Ram.w32 (Ram.new 1024) 0 0xAABBCCDD).1 0 = .ok 0xAABBCCDD ∧
    (∃ m, Ram.r32 (Ram.new 1024) 4 = .error (.contractViolation m (some 0x2D2D2D2D))) ∧
    (Ram.bulk_write (Ram.new 1024) 2 [7, 9]).mem 3 = 9 := by
  obtain ⟨-, -, -, -, -, h6, -, -, -, -, -, -, -⟩ :=
    c9_ram_init_tracking (Ram.new 1024) 0 0xAABBCCDD 1024 []
  obtain ⟨-, -, -, -, -, -, -, -, -, -, -, -, hfresh⟩ :=
    c9_ram_init_tracking (Ram.new 1024) 4 0 1024 []
  obtain ⟨-, -, hb, -, -, -, -, -, -, -, -, -, -⟩ :=
    c9_ram_init_tracking (Ram.new 1024) 2 0 1024 [7, 9]
  refine ⟨h6 (by norm_num), hfresh.2.2, ?_⟩
  have hx := (hb 1 (by norm_num)).1
  simpa using hx

/-- Helper for result-shape checks: the operation produced an Error-severity
ContractViolation. -/
def resIsCVError {α : Type} : MemResult α → Bool
  | .error e => e.isCVError
  | .ok _ => false

/-- The operation result is a ContractViolation of any severity. -/
def resIsCV {α : Type} : MemResult α → Bool
  | .error e => e.isCV
  | .ok _ => false

/-- Claim C2: a Syscon 32-bit read at Halt (0x08) or Standby (0x0C) succeeds
and moves the power state to Halt (resp. Standby) when bit 0 of
`device_cfg` is 1; when that bit is 0 it returns an Error-severity
ContractViolation and leaves the state unchanged. -/
theorem c2_syscon_halt_standby_reads (s : Syscon) :
    (s.device_cfg &&& 1 = 1 →
      Syscon.r32 s 0x08 = ({ s with power_state := .halt }, .ok 0) ∧
      Syscon.r32 s 0x0C = ({ s with power_state := .standby }, .ok 0)) ∧
    (s.device_cfg &&& 1 = 0 →
      ((Syscon.r32 s 0x08).1 = s ∧ resIsCVError (Syscon.r32 s 0x08).2 = true) ∧
      ((Syscon.r32 s 0x0C).1 = s ∧ resIsCVError (Syscon.r32 s 0x0C).2 = true)) := by
  constructor
  · intro h
    constructor <;> simp [Syscon.r32, h]
  · intro h
    constructor <;> simp [Syscon.r32, h, resIsCVError, MemException.isCVError]

/-- Witness for C2: with the SHena bit set the Halt read transitions to
Halt; with the default HLE `device_cfg` (bit 0 clear) the Standby read is
rejected and the state is unchanged. -/
theorem c2_syscon_halt_standby_reads_witness :
    (Syscon.r32 { Syscon.new_hle with device_cfg := 0x08940d01 } 0x08 =
      ({ Syscon.new_hle with device_cfg := 0x08940d01, power_state := .halt }, .ok 0)) ∧
    ((Syscon.r32 Syscon.new_hle 0x0C).1 = Syscon.new_hle ∧
      resIsCVError (Syscon.r32 Syscon.new_hle 0x0C).2 = true) := by
  have h1 := (c2_syscon_halt_standby_reads
    { Syscon.new_hle with device_cfg := 0x08940d01 }).1 (by decide)
  have h2 := (c2_syscon_halt_standby_reads Syscon.new_hle).2 (by decide)
  exact ⟨h1.1, h2.2⟩

/-- Counterexample to C3 as stated: an unlocked write to offset 0x84
(VidClkDiv, inside the SW-locked region) does not store the value — it
fails with Unimplemented — so "the same write when unlocked stores the
value" is false for that offset. -/
theorem c3_syscon_lock_fsm_counterexample :
    ¬ ((Syscon.w32 { Syscon.new_hle with is_locked := false } 0x84 0x1234).2 = .ok ()) := by
  decide

/-- In the locked region the register body never touches the lock flag
(only SysSWLock at 0xC0 does, and it is outside the region). -/
theorem sysconW32Body_lock_stable (s : Syscon) (off v : Nat) (h1 : 0x80 ≤ off)
    (h2 : off ≤ 0x9C) :
    (Syscon.w32Body s off v).1.is_locked = s.is_locked := by
  interval_cases off <;> simp [Syscon.w32Body]

/-- In the locked region, every register body except DeviceCfg (0x80)
reports an error (Unimplemented or Unexpected). -/
theorem sysconW32Body_other_err (s : Syscon) (off v : Nat) (h1 : 0x80 ≤ off)
    (h2 : off ≤ 0x9C) (h3 : off ≠ 0x80) :
    (Syscon.w32Body s off v).2.isOk = false := by
  interval_cases off <;> simp_all [Syscon.w32Body, Except.isOk, Except.toBool]

/-- Claim C3 as amended: the controller starts locked; writing exactly 0xAA
to 0xC0 clears the lock, any other value is a ContractViolation leaving the
lock unchanged; reading 0xC0 gives 0x01 unlocked / 0x00 locked; a write in
0x80..=0x9C while locked fails with an Error-severity ContractViolation and
changes nothing; when unlocked the lock immediately re-engages for every
write in the region, the value being stored only for the one read/write
register there (DeviceCfg at 0x80) while the remaining offsets fail
(Unimplemented/Unexpected) — so at most one locked-region write succeeds
per unlock. -/
theorem c3_syscon_lock_fsm :
    Syscon.new_hle.is_locked = true ∧
    (∀ s : Syscon, Syscon.w32 s 0xC0 0xAA = ({ s with is_locked := false }, .ok ())) ∧
    (∀ (s : Syscon) (v : Nat), v ≠ 0xAA →
      (Syscon.w32 s 0xC0 v).1 = s ∧ resIsCV (Syscon.w32 s 0xC0 v).2 = true) ∧
    (∀ s : Syscon,
      (s.is_locked = true → Syscon.r32 s 0xC0 = (s, .ok 0x00)) ∧
      (s.is_locked = false → Syscon.r32 s 0xC0 = (s, .ok 0x01))) ∧
    (∀ (s : Syscon) (off v : Nat), 0x80 ≤ off → off ≤ 0x9C → s.is_locked = true →
      (Syscon.w32 s off v).1 = s ∧ resIsCVError (Syscon.w32 s off v).2 = true) ∧
    (∀ (s : Syscon) (v : Nat), s.is_locked = false →
      Syscon.w32 s 0x80 v = ({ s with is_locked := true, device_cfg := v }, .ok ())) ∧
    (∀ (s : Syscon) (off v : Nat), s.is_locked = false → 0x80 ≤ off → off ≤ 0x9C →
      (Syscon.w32 s off v).1.is_locked = true) ∧
    (∀ (s : Syscon) (off v : Nat), s.is_locked = false → 0x80 ≤ off → off ≤ 0x9C →
      off ≠ 0x80 → (Syscon.w32 s off v).2.isOk = false) := by
  refine ⟨rfl, ?_, ?_, ?_, ?_, ?_, ?_, ?_⟩
  · intro s
    simp [Syscon.w32, Syscon.w32Body]
  · intro s v h
    simp [Syscon.w32, Syscon.w32Body, h, resIsCV, MemException.isCV]
  · intro s
    constructor <;> intro h <;> simp [Syscon.r32, h]
  · intro s off v h1 h2 hl
    simp [Syscon.w32, h1, h2, hl, resIsCVError, MemException.isCVError]
  · intro s v h
    simp [Syscon.w32, Syscon.w32Body, h]
  · intro s off v h h1 h2
    unfold Syscon.w32
    rw [if_pos ⟨h1, h2⟩, if_neg (by simp [h]), sysconW32Body_lock_stable _ off v h1 h2]
  · intro s off v h h1 h2 h3
    unfold Syscon.w32
    rw [if_pos ⟨h1, h2⟩, if_neg (by simp [h])]
    exact sysconW32Body_other_err _ off v h1 h2 h3

/-- Witness for C3 on the HLE syscon: unlock with 0xAA, then a DeviceCfg
write stores and re-locks; a locked write to 0x88 is rejected unchanged; an
unlocked write to 0x84 re-locks but fails. -/
theorem c3_syscon_lock_fsm_witness :
    Syscon.w32 Syscon.new_hle 0xC0 0xAA = ({ Syscon.new_hle with is_locked := false }, .ok ()) ∧
    Syscon.w32 { Syscon.new_hle with is_locked := false } 0x80 0x12345678 =
      ({ Syscon.new_hle with is_locked := true, device_cfg := 0x12345678 }, .ok ()) ∧
    ((Syscon.w32 Syscon.new_hle 0x88 7).1 = Syscon.new_hle ∧
      resIsCVError (Syscon.w32 Syscon.new_hle 0x88 7).2 = true) ∧
    (Syscon.w32 { Syscon.new_hle with is_locked := false } 0x84 7).1.is_locked = true ∧
    (Syscon.w32 { Syscon.new_hle with is_locked := false } 0x84 7).2.isOk = false := by
  obtain ⟨-, h2, -, -, h5, h6, h7, h8⟩ := c3_syscon_lock_fsm
  exact ⟨h2 Syscon.new_hle,
    h6 { Syscon.new_hle with is_locked := false } 0x12345678 rfl,
    h5 Syscon.new_hle 0x88 7 (by norm_num) (by norm_num) rfl,
    h7 { Syscon.new_hle with is_locked := false } 0x84 7 rfl (by norm_num) (by norm_num),
    h8 { Syscon.new_hle with is_locked := false } 0x84 7 rfl (by norm_num) (by norm_num)
      (by norm_num)⟩


/-- Claim C5: for every timer register access, the lazy update computes
`micro = dt * khz + carry`, `ticks = micro div 1e6`, new carry
`= micro mod 1e6` (so `0 ≤ carry < 1e6` always, machine casts permitting);
in FreeRunning, `val` becomes the wrapping subtraction `(val - ticks)`
masked by `wrapmask`; in Periodic with load `L`: `0` if `L = 0`,
`L - ((ticks - val) mod L)` if `val < ticks`, else `val - ticks`. -/
theorem c5_timer_lazy_update (s : Timer) (dt : Nat)
    (hen : s.enabled = true)
    (hfit : dt * s.clksel.khz + s.microticks < 2 ^ 64)
    (hticks : (dt * s.clksel.khz + s.microticks) / 1000000 < 2 ^ 32) :
    ((Timer.update_regs s dt).1.microticks = (dt * s.clksel.khz + s.microticks) % 1000000 ∧
      (Timer.update_regs s dt).1.microticks < 1000000) ∧
    (s.mode = .freeRunning →
      (Timer.update_regs s dt).1.val =
        ((s.val + (2 ^ 32 - (dt * s.clksel.khz + s.microticks) / 1000000)) % 2 ^ 32) &&&
          s.wrapmask) ∧
    (∀ L, s.mode = .periodic → s.loadval = some L →
      (Timer.update_regs s dt).1.val =
        (if L = 0 then 0
         else if s.val < (dt * s.clksel.khz + s.microticks) / 1000000 then
           L - (((dt * s.clksel.khz + s.microticks) / 1000000 - s.val) % L)
         else s.val - (dt * s.clksel.khz + s.microticks) / 1000000)) := by
  have hmicro : (dt * s.clksel.khz + s.microticks) % 18446744073709551616 =
      dt * s.clksel.khz + s.microticks := Nat.mod_eq_of_lt (by simpa using hfit)
  have ht2 : (dt * s.clksel.khz + s.microticks) / 1000000 % 4294967296 =
      (dt * s.clksel.khz + s.microticks) / 1000000 := Nat.mod_eq_of_lt (by simpa using hticks)
  rcases hm : s.mode with _ | _ <;> rcases hl : s.loadval with _ | L' <;>
    simp [Timer.update_regs, hen, hm, hl, hmicro, ht2, Nat.mod_lt]

/-- A concrete enabled free-running 16-bit timer at 508 kHz. -/
def timerFree508 : Timer :=
  { Timer.new 16 with enabled := true, clksel := .khz508, val := 100 }

/-- Witness for C5: a 16-bit free-running timer at 508 kHz, 1 ms elapsed —
508 ticks, zero carry. -/
theorem c5_timer_lazy_update_witness :
    (Timer.update_regs timerFree508 1000000).1.microticks = 0 ∧
    (Timer.update_regs timerFree508 1000000).1.microticks < 1000000 ∧
    (Timer.update_regs timerFree508 1000000).1.val =
      ((100 + (2 ^ 32 - 508)) % 2 ^ 32) &&& 0xFFFF := by
  have h := c5_timer_lazy_update timerFree508 1000000 rfl
    (by norm_num [timerFree508, Timer.new, TimerClock.khz])
    (by norm_num [timerFree508, Timer.new, TimerClock.khz])
  refine ⟨?_, h.1.2, ?_⟩
  · have h1 := h.1.1
    simp [timerFree508, Timer.new, TimerClock.khz] at h1
    exact h1
  · have h2 := h.2.1 rfl
    simp [timerFree508, Timer.new, TimerClock.khz] at h2 ⊢
    exact h2

/-- The lazy update never touches `loadval` or `enabled`, and its only
error is the Error-severity Periodic-without-Load ContractViolation. -/
theorem timer_update_regs_shape (s : Timer) (dt : Nat) :
    (Timer.update_regs s dt).1.loadval = s.loadval ∧
    (Timer.update_regs s dt).1.enabled = s.enabled ∧
    (∀ e, (Timer.update_regs s dt).2 = some e → e.isCVError = true) := by
  cases hen : s.enabled <;> rcases hm : s.mode with _ | _ <;>
    rcases hl : s.loadval with _ | L' <;>
      simp [Timer.update_regs, hen, hm, hl, MemException.isCVError]

/-- Claim C6: a Load write while enabled returns an Error-severity
ContractViolation and leaves `loadval` untouched and `val` exactly where
the (always-run) lazy update put it; a Load write while disabled stores
`L & wrapmask` into both `loadval` and `val`; a Control write that enables
a Periodic timer with no Load value set returns a ContractViolation. -/
theorem c6_timer_write_protocol (s : Timer) (dt L : Nat) :
    (s.enabled = true →
      resIsCVError (Timer.w32 s dt 0x00 L).2.2 = true ∧
      (Timer.w32 s dt 0x00 L).1.loadval = s.loadval ∧
      (Timer.w32 s dt 0x00 L).1.val = (Timer.update_regs s dt).1.val) ∧
    (s.enabled = false →
      Timer.w32 s dt 0x00 L =
        ({ s with loadval := some (L &&& s.wrapmask), val := L &&& s.wrapmask }, [], .ok ())) ∧
    (s.enabled = false → s.loadval = none → L &&& (1 <<< 7) ≠ 0 → L &&& (1 <<< 6) ≠ 0 →
      resIsCVError (Timer.w32 s dt 0x08 L).2.2 = true) := by
  obtain ⟨hload, henab, herr⟩ := timer_update_regs_shape s dt
  refine ⟨?_, ?_, ?_⟩
  · intro hen
    rcases hu : Timer.update_regs s dt with ⟨s1, e⟩
    rw [hu] at hload henab herr
    simp only at hload henab herr
    rcases e with _ | e
    · have h1 : s1.enabled = true := by rw [henab]; exact hen
      refine ⟨?_, ?_, ?_⟩ <;>
        simp [Timer.w32, hu, h1, hload, resIsCVError, MemException.isCVError]
    · have he := herr e rfl
      refine ⟨?_, ?_, ?_⟩ <;> simp [Timer.w32, hu, hload, resIsCVError, he]
  · intro hen
    have hu : Timer.update_regs s dt = (s, none) := by simp [Timer.update_regs, hen]
    simp [Timer.w32, hu, hen]
  · intro hen hl h7 h6
    have h7a : L &&& 128 ≠ 0 := by simpa using h7
    have h6a : L &&& 64 ≠ 0 := by simpa using h6
    have hu : Timer.update_regs s dt = (s, none) := by simp [Timer.update_regs, hen]
    simp [Timer.w32, hu, hen, hl, h7a, h6a, resIsCVError, MemException.isCVError]

/-- Witness for C6 on concrete 16-bit timers: rejected enabled-Load write,
successful disabled-Load write with masking, rejected Periodic enable
without Load. -/
theorem c6_timer_write_protocol_witness :
    resIsCVError (Timer.w32 { Timer.new 16 with enabled := true } 0 0x00 5).2.2 = true ∧
    Timer.w32 (Timer.new 16) 0 0x00 0x12345 =
      ({ Timer.new 16 with loadval := some 0x2345, val := 0x2345 }, [], .ok ()) ∧
    resIsCVError (Timer.w32 (Timer.new 16) 0 0x08 0xC0).2.2 = true := by
  have hA := (c6_timer_write_protocol { Timer.new 16 with enabled := true } 0 5).1 rfl
  have hB := (c6_timer_write_protocol (Timer.new 16) 0 0x12345).2.1 rfl
  have hC := (c6_timer_write_protocol (Timer.new 16) 0 0xC0).2.2 rfl rfl
    (by decide) (by decide)
  exact ⟨hA.1, hB, hC⟩


/-- `List.findSome?` returns the image of the first element on which `p`
fires, and `none` exactly when `p` fires nowhere. -/
theorem findSome_first_characterization {α β : Type} (p : α → Option β) :
    ∀ l : List α,
      (∃ i : Fin l.length, (p (l.get i)).isSome = true ∧
        (∀ j : Fin l.length, (j : Nat) < (i : Nat) → p (l.get j) = none) ∧
        l.findSome? p = p (l.get i)) ∨
      ((∀ i : Fin l.length, p (l.get i) = none) ∧ l.findSome? p = none) := by
  intro l
  induction l with
  | nil =>
      right
      exact ⟨fun i => absurd i.isLt (by simp), rfl⟩
  | cons a t ih =>
      cases hp : p a with
      | some b =>
          left
          refine ⟨⟨0, by simp⟩, ?_, ?_, ?_⟩
          · simp [hp]
          · intro j hj; simp at hj
          · simp [List.findSome?_cons, hp]
      | none =>
          rcases ih with ⟨i, hi1, hi2, hi3⟩ | ⟨h1, h2⟩
          · left
            refine ⟨⟨i + 1, by simp [i.isLt]⟩, ?_, ?_, ?_⟩
            · simpa using hi1
            · intro j hj
              match j with
              | ⟨0, _⟩ => simpa using hp
              | ⟨k + 1, hk⟩ =>
                  have : k < (i : Nat) := by simpa using hj
                  simpa using hi2 ⟨k, by simpa using hk⟩ this
            · simp [List.findSome?_cons, hp, hi3]
          · right
            refine ⟨?_, ?_⟩
            · intro i
              match i with
              | ⟨0, _⟩ => simpa using hp
              | ⟨k + 1, hk⟩ => simpa using h1 ⟨k, by simpa using hk⟩
            · simp [List.findSome?_cons, hp, h2]

/-- Claim C7: for every VIC bank state, a VectAddr (0x30) read returns
`default_isr` when `fiq` is set or `irq` is clear; otherwise the
`isr_addr` of the lowest-index vector entry that is enabled and whose
source bit lies in `enabled_active_interrupts & !select`, or `default_isr`
if no entry qualifies. -/
theorem c7_vic_vectored_isr_lookup (s : Vic) :
    (s.fiq = true ∨ s.irq = false → Vic.r32 s 0x30 = .ok s.default_isr) ∧
    (s.fiq = false → s.irq = true →
      (∃ i : Fin s.vector_entries.length,
        Vic.vectorHit (s.enabled_active_interrupts &&& not32 s.select)
          (s.vector_entries.get i) = true ∧
        (∀ j : Fin s.vector_entries.length, (j : Nat) < (i : Nat) →
          Vic.vectorHit (s.enabled_active_interrupts &&& not32 s.select)
            (s.vector_entries.get j) = false) ∧
        Vic.r32 s 0x30 = .ok (s.vector_entries.get i).isr_addr) ∨
      ((∀ i : Fin s.vector_entries.length,
          Vic.vectorHit (s.enabled_active_interrupts &&& not32 s.select)
            (s.vector_entries.get i) = false) ∧
        Vic.r32 s 0x30 = .ok s.default_isr)) := by
  have hr : Vic.r32 s 0x30 = .ok s.isr_address := by norm_num [Vic.r32]
  constructor
  · intro h
    rw [hr]
    rcases h with h | h <;> simp [Vic.isr_address, h]
  · intro hf hi
    have hisr : s.isr_address =
        (s.vector_entries.findSome? (fun entry =>
          if Vic.vectorHit (s.enabled_active_interrupts &&& not32 s.select) entry then
            some entry.isr_addr
          else none)).getD s.default_isr := by
      unfold Vic.isr_address
      rw [hf, hi]
      simp
    rcases findSome_first_characterization (fun entry =>
        if Vic.vectorHit (s.enabled_active_interrupts &&& not32 s.select) entry then
          some entry.isr_addr
        else none) s.vector_entries with ⟨i, h1, h2, h3⟩ | ⟨h1, h2⟩
    · left
      cases hhit : Vic.vectorHit (s.enabled_active_interrupts &&& not32 s.select)
          (s.vector_entries.get i) with
      | false =>
          rw [hhit] at h1
          simp at h1
      | true =>
          refine ⟨i, hhit, ?_, ?_⟩
          · intro j hj
            have hj2 := h2 j hj
            by_contra hcon
            rw [Bool.not_eq_false] at hcon
            rw [hcon] at hj2
            simp at hj2
          · rw [hr, hisr, h3, hhit]
            simp
    · right
      refine ⟨?_, ?_⟩
      · intro i
        have h1i := h1 i
        by_contra hcon
        rw [Bool.not_eq_false] at hcon
        rw [hcon] at h1i
        simp at h1i
      · rw [hr, hisr, h2]
        rfl

/-- Claim C8: a manager-level VectAddr (0x30) read returns bank 1's
VectAddr value when bank 1 raises IRQ, else bank 2's when bank 2 raises
IRQ, else bank 1's default ISR address. -/
theorem c8_vicmanager_daisy_chain (m : VicManager) :
    (m.vic1.irq = true → VicManager.r32 m 0x30 = .ok m.vic1.isr_address) ∧
    (m.vic1.irq = false → m.vic2.irq = true →
      VicManager.r32 m 0x30 = .ok m.vic2.isr_address) ∧
    (m.vic1.irq = false → m.vic2.irq = false →
      VicManager.r32 m 0x30 = .ok m.vic1.default_isr) := by
  refine ⟨?_, ?_, ?_⟩
  · intro h1
    simp [VicManager.r32, h1]
    norm_num [Vic.r32]
  · intro h1 h2
    simp [VicManager.r32, h1, h2]
    norm_num [Vic.r32]
  · intro h1 h2
    simp [VicManager.r32, h1, h2]
    norm_num [Vic.r32]

/-- A fully idle VIC bank. -/
def vicIdle : Vic :=
  { status := 0, enabled := 0, select := 0, software_status := 0,
    default_isr := 0xAA, vector_entries := [] }

/-- A bank with interrupt source 20 (Uart3Tx on bank 2) pending, enabled,
routed to IRQ, and vectored at 0xDEADBEEF. -/
def vicUart3Tx : Vic :=
  { status := 1 <<< 20, enabled := 0xFFFFFFFF, select := 0, software_status := 0,
    default_isr := 0xBB, vector_entries := [⟨20, 0xDEADBEEF, true⟩] }

/-- Witness for C8: with bank 2 holding the only pending IRQ (Uart3Tx,
bit 20 of bank 2), the manager read returns bank 2's vectored ISR; with
both banks idle it returns bank 1's default ISR. -/
theorem c8_vicmanager_daisy_chain_witness :
    VicManager.r32 { vic1 := vicIdle, vic2 := vicUart3Tx } 0x30 = .ok 0xDEADBEEF ∧
    VicManager.r32 { vic1 := vicIdle, vic2 := vicIdle } 0x30 = .ok 0xAA := by
  constructor
  · have h := (c8_vicmanager_daisy_chain { vic1 := vicIdle, vic2 := vicUart3Tx }).2.1
      (by decide) (by decide)
    rw [h]; decide
  · exact (c8_vicmanager_daisy_chain { vic1 := vicIdle, vic2 := vicIdle }).2.2
      (by decide) (by decide)

/-- Claim C1 (code bug evidence): at `uartTimeoutOnlyState` the masked
int-id byte is `0b1000` — bit 2 (TX half-empty) is clear — yet
`update_interrupts` emits `(tx, true)` and latches the Tx assertion,
because the source masks the Tx interrupt with `0b1000` (bit 3, the
receive-timeout bit) instead of `0b0100`.  The Rx (mask `0b0010`) and
Combined (mask `0b1111`) wiring and the edge-triggered emit-on-change
protocol match the claim. -/
theorem c1_tx_interrupt_keyed_to_timeout_bit :
    uartTimeoutOnlyState.get_int_id = 0b1000 ∧
    uartTimeoutOnlyState.get_int_id &&& 0b0100 = 0 ∧
    (uartTimeoutOnlyState.update_interrupts).2 = [(.tx, true), (.combo, true)] ∧
    (uartTimeoutOnlyState.update_interrupts).1.tx_int_asserted = true := by
  decide

/-- A bank whose only pending source is routed to FIQ. -/
def vicFiqPending : Vic :=
  { status := 4, enabled := 0xFFFFFFFF, select := 4, software_status := 0,
    default_isr := 0xAA, vector_entries := [⟨2, 0xDEAD, true⟩] }

/-- Witness for C7: a bank with a pending FIQ reads its default ISR from
VectAddr. -/
theorem c7_vic_vectored_isr_lookup_witness : Vic.r32 vicFiqPending 0x30 = .ok 0xAA := by
  have h := (c7_vic_vectored_isr_lookup vicFiqPending).1 (Or.inl (by decide))
  rw [h]; decide
